import Mathlib

/-!
Verification of the k8s-memory-watch memory analysis and reporting engine.

Shallow embedding of the Go sources: `resource.Quantity` values are modelled
by their integer byte count (`Int`, the result of `Value()`), optional values
(`*resource.Quantity`, `*float64`) by `Option`, and the derived float64
percentages by exact rationals (`ℚ`).  Maps keyed by strings are modelled as
association lists.  All definitions are executable.
-/

namespace KMW

/-- Configuration fields consumed by the core (internal/config, part_006):
warning threshold and the label/annotation keys surfaced in output. -/
structure Config where
  MemoryWarningPercent : ℚ
  Labels : List String := []
  Annotations : List String := []
deriving Repr, DecidableEq

/-- ContainerMemoryInfo (internal/k8s types, fields as used throughout
memory.go and the monitor package): per-container usage sample. -/
structure ContainerMemoryInfo where
  ContainerName : String
  CurrentUsage : Option Int := none
  MemoryRequest : Option Int := none
  MemoryLimit : Option Int := none
  UsagePercent : Option ℚ := none
  LimitUsagePercent : Option ℚ := none
deriving Repr, DecidableEq

/-- PodMemoryInfo (internal/k8s/types.go, plus the Containers/Labels/
Annotations fields used by memory.go and the monitor package). -/
structure PodMemoryInfo where
  Namespace : String
  PodName : String
  CurrentUsage : Option Int := none
  MemoryRequest : Option Int := none
  MemoryLimit : Option Int := none
  UsagePercent : Option ℚ := none
  LimitUsagePercent : Option ℚ := none
  Phase : String := ""
  Ready : Bool := false
  Containers : List ContainerMemoryInfo := []
  Labels : List (String × String) := []
  Annotations : List (String × String) := []
deriving Repr, DecidableEq

/-- MemorySummary (internal/k8s/types.go): cluster/namespace rollup.
The Go `time.Time` timestamp is irrelevant to the analysed logic and is
modelled as an opaque string. -/
structure MemorySummary where
  Timestamp : String := ""
  TotalPods : Nat := 0
  RunningPods : Nat := 0
  PodsWithMetrics : Nat := 0
  PodsWithLimits : Nat := 0
  PodsWithRequests : Nat := 0
  TotalMemoryUsage : Int := 0
  TotalMemoryLimit : Int := 0
  TotalMemoryRequest : Int := 0
  NamespaceCount : Nat := 0
deriving Repr, DecidableEq

/-- MemoryReport (monitor package, part_000 lines 22-25). -/
structure MemoryReport where
  Summary : MemorySummary
  Pods : List PodMemoryInfo
deriving Repr, DecidableEq

/-- AnalysisResult (monitor package, part_000 lines 28-33). -/
structure AnalysisResult where
  Report : MemoryReport
  HighUsagePods : List PodMemoryInfo
  WarningPods : List PodMemoryInfo
  ProblemsFound : List String
deriving Repr, DecidableEq

/-- `CalculateUsagePercent` on `PodMemoryInfo` (internal/k8s/types.go):
derives usage/request and usage/limit percentages when the inputs are
present and the denominator is positive. -/
def PodMemoryInfo.CalculateUsagePercent (p : PodMemoryInfo) : PodMemoryInfo :=
  match p.CurrentUsage with
  | none => p
  | some u =>
    let p1 :=
      match p.MemoryRequest with
      | some r => if 0 < r then { p with UsagePercent := some ((u : ℚ) / (r : ℚ) * 100) } else p
      | none => p
    match p1.MemoryLimit with
    | some l => if 0 < l then { p1 with LimitUsagePercent := some ((u : ℚ) / (l : ℚ) * 100) } else p1
    | none => p1

/-- `CalculateUsagePercent` on `ContainerMemoryInfo`.
Modelled from the spec: the struct's method is absent from src (only its test,
`TestContainerMemoryInfo_CalculateUsagePercent`, is); per §3 the derivation
rule is the same as at pod level — percent computed only when usage and the
denominator are present and the denominator is positive. -/
def ContainerMemoryInfo.CalculateUsagePercent (c : ContainerMemoryInfo) : ContainerMemoryInfo :=
  match c.CurrentUsage with
  | none => c
  | some u =>
    let c1 :=
      match c.MemoryRequest with
      | some r => if 0 < r then { c with UsagePercent := some ((u : ℚ) / (r : ℚ) * 100) } else c
      | none => c
    match c1.MemoryLimit with
    | some l => if 0 < l then { c1 with LimitUsagePercent := some ((u : ℚ) / (l : ℚ) * 100) } else c1
    | none => c1

/-- Shared helper: an optional percentage is present and at least the bound
(the Go pattern `p != nil && *p >= bound`). -/
def percentAtLeast (p : Option ℚ) (bound : ℚ) : Bool :=
  match p with
  | some v => decide (bound ≤ v)
  | none => false

/-- `missingConfigStatus` (part_000 lines 203-214). -/
def missingConfigStatus (pod : PodMemoryInfo) : String × Bool :=
  if pod.MemoryRequest = none ∧ pod.MemoryLimit = none then ("no_config", true)
  else if pod.MemoryRequest = none then ("no_request", true)
  else if pod.MemoryLimit = none then ("no_limit", true)
  else ("", false)

/-- `isCritical` (part_000 lines 216-221): usage ≥ 95% of request or
usage ≥ 90% of limit, via the stored percentage fields. -/
def isCritical (pod : PodMemoryInfo) : Bool :=
  percentAtLeast pod.UsagePercent 95 || percentAtLeast pod.LimitUsagePercent 90

/-- `isWarning` (part_000 lines 223-225). -/
def isWarning (pod : PodMemoryInfo) (cfg : Config) : Bool :=
  percentAtLeast pod.UsagePercent cfg.MemoryWarningPercent

/-- `getMemoryStatus` (part_000 lines 179-201): pod-level status classifier
for CSV output, first match wins. -/
def getMemoryStatus (pod : PodMemoryInfo) (cfg : Config) : String :=
  if pod.CurrentUsage = none then "no_data"
  else if (missingConfigStatus pod).2 = true then (missingConfigStatus pod).1
  else if isCritical pod = true then "critical"
  else if isWarning pod cfg = true then "warning"
  else if pod.Ready = false ∨ ¬ pod.Phase = "Running" then "not_ready"
  else "ok"

/-- Specification-side classifier (§4.2 of the spec, written from the spec's
words): a total function of exactly the eight-component tuple
(usage present?, request present?, limit present?, usagePercent,
limitUsagePercent, warning threshold, ready, phase), evaluating the eight
statuses in the stated strict precedence order. -/
def classifyMemoryStatus (usagePresent reqPresent limPresent : Bool)
    (usagePercent limitUsagePercent : Option ℚ) (warn : ℚ)
    (ready : Bool) (phase : String) : String :=
  if usagePresent = false then "no_data"
  else if reqPresent = false ∧ limPresent = false then "no_config"
  else if reqPresent = false then "no_request"
  else if limPresent = false then "no_limit"
  else if percentAtLeast usagePercent 95 = true ∨ percentAtLeast limitUsagePercent 90 = true then
    "critical"
  else if percentAtLeast usagePercent warn = true then "warning"
  else if ready = false ∨ ¬ phase = "Running" then "not_ready"
  else "ok"

/-- **C1**: the pod/container status classifier is a total deterministic
function of (usage present?, request present?, limit present?, usagePercent,
limitUsagePercent, warning threshold, ready, phase): `getMemoryStatus` equals
the explicit eight-case first-match-wins cascade `classifyMemoryStatus` of
exactly those components, in the precedence order no_data, no_config,
no_request, no_limit, critical, warning, not_ready, ok; in particular an
entity with no usage value is always classified no_data. -/
theorem getMemoryStatus_eq_classify (pod : PodMemoryInfo) (cfg : Config) :
    getMemoryStatus pod cfg =
      classifyMemoryStatus pod.CurrentUsage.isSome pod.MemoryRequest.isSome
        pod.MemoryLimit.isSome pod.UsagePercent pod.LimitUsagePercent
        cfg.MemoryWarningPercent pod.Ready pod.Phase ∧
    (pod.CurrentUsage = none → getMemoryStatus pod cfg = "no_data") := by
  constructor
  · rcases pod with ⟨ns, pn, cu, mr, ml, up, lp, ph, rd, cs, lb, an⟩
    rcases cu with _ | u <;> rcases mr with _ | r <;> rcases ml with _ | l <;>
      simp [getMemoryStatus, classifyMemoryStatus, missingConfigStatus, isCritical, isWarning]
  · intro h
    simp [getMemoryStatus, h]

/-- Witness for C1 at a concrete pod with no usage data but extreme
configured request/limit: the classifier yields no_data. -/
theorem getMemoryStatus_eq_classify_witness :
    getMemoryStatus
      { Namespace := "ns", PodName := "p", CurrentUsage := none,
        MemoryRequest := some 1, MemoryLimit := some 1,
        Phase := "Running", Ready := true }
      { MemoryWarningPercent := 80 } = "no_data" :=
  (getMemoryStatus_eq_classify
    { Namespace := "ns", PodName := "p", CurrentUsage := none,
      MemoryRequest := some 1, MemoryLimit := some 1,
      Phase := "Running", Ready := true }
    { MemoryWarningPercent := 80 }).2 rfl

/-- The `summarize` closure inside `limitState` (part_000 lines 419-428). -/
def limitStateSummarize (all anyPresent : Bool) : String :=
  if all = true then "All"
  else if anyPresent = true then "Partial"
  else "None"

/-- `limitState` (part_000 lines 418-455): ternary All/Partial/None
classification of limit and request declarations over a pod's containers,
falling back to the pod-level values when no container breakdown exists. -/
def limitState (pod : PodMemoryInfo) : String × String :=
  if pod.Containers = [] then
    (limitStateSummarize pod.MemoryLimit.isSome pod.MemoryLimit.isSome,
     limitStateSummarize pod.MemoryRequest.isSome pod.MemoryRequest.isSome)
  else
    let allLimits := pod.Containers.all (fun c => c.MemoryLimit.isSome)
    let anyLimits := pod.Containers.any (fun c => c.MemoryLimit.isSome)
    let allRequests := pod.Containers.all (fun c => c.MemoryRequest.isSome)
    let anyRequests := pod.Containers.any (fun c => c.MemoryRequest.isSome)
    (limitStateSummarize allLimits anyLimits, limitStateSummarize allRequests anyRequests)

/-- **C7**: limit-consistency is ternary and exhaustive.  For a pod with at
least one container the "limits" classification is exactly one of All,
Partial, None, with All iff every container declares a limit, None iff no
container does, and Partial iff some but not all do; the same holds for
"requests".  For a pod with no container breakdown the classification falls
back to the pod-level value alone (present gives All, absent gives None) and
Partial is unreachable. -/
theorem limitState_ternary_exhaustive (pod : PodMemoryInfo) :
    (pod.Containers ≠ [] →
      (((limitState pod).1 = "All" ∨ (limitState pod).1 = "Partial" ∨
          (limitState pod).1 = "None") ∧
        ((limitState pod).1 = "All" ↔ ∀ c ∈ pod.Containers, c.MemoryLimit.isSome = true) ∧
        ((limitState pod).1 = "None" ↔ ∀ c ∈ pod.Containers, c.MemoryLimit = none) ∧
        ((limitState pod).1 = "Partial" ↔
          ¬ (∀ c ∈ pod.Containers, c.MemoryLimit.isSome = true) ∧
          ¬ (∀ c ∈ pod.Containers, c.MemoryLimit = none)) ∧
        ((limitState pod).2 = "All" ↔ ∀ c ∈ pod.Containers, c.MemoryRequest.isSome = true) ∧
        ((limitState pod).2 = "None" ↔ ∀ c ∈ pod.Containers, c.MemoryRequest = none) ∧
        ((limitState pod).2 = "Partial" ↔
          ¬ (∀ c ∈ pod.Containers, c.MemoryRequest.isSome = true) ∧
          ¬ (∀ c ∈ pod.Containers, c.MemoryRequest = none)))) ∧
    (pod.Containers = [] →
      (limitState pod).1 = (if pod.MemoryLimit.isSome = true then "All" else "None") ∧
      (limitState pod).2 = (if pod.MemoryRequest.isSome = true then "All" else "None") ∧
      (limitState pod).1 ≠ "Partial" ∧ (limitState pod).2 ≠ "Partial") := by
  constructor
  · intro hne
    have hall : ∀ (f : ContainerMemoryInfo → Option Int),
        (pod.Containers.all (fun c => (f c).isSome) = true) ↔
          ∀ c ∈ pod.Containers, (f c).isSome = true := by
      intro f; simp [List.all_eq_true]
    have hany : ∀ (f : ContainerMemoryInfo → Option Int),
        (pod.Containers.any (fun c => (f c).isSome) = false) ↔
          ∀ c ∈ pod.Containers, f c = none := by
      intro f
      rw [← Bool.not_eq_true, List.any_eq_true]
      push_neg
      constructor
      · intro h c hc
        have hnc := h c hc
        cases hfc : f c with
        | none => rfl
        | some v => simp [hfc] at hnc
      · intro h c hc
        simp [h c hc]
    refine ⟨?_, ?_, ?_, ?_, ?_, ?_, ?_⟩ <;>
      simp only [limitState, if_neg hne, limitStateSummarize]
    · rcases h1 : pod.Containers.all (fun c => c.MemoryLimit.isSome) <;>
        rcases h2 : pod.Containers.any (fun c => c.MemoryLimit.isSome) <;> simp
    · rcases h1 : pod.Containers.all (fun c => c.MemoryLimit.isSome) <;>
        rcases h2 : pod.Containers.any (fun c => c.MemoryLimit.isSome) <;>
        simp [← hall (fun c => c.MemoryLimit), h1]
    · rcases h1 : pod.Containers.all (fun c => c.MemoryLimit.isSome) <;>
        rcases h2 : pod.Containers.any (fun c => c.MemoryLimit.isSome) <;>
        simp [← hany (fun c => c.MemoryLimit), h2]
      · obtain ⟨c, hc⟩ := List.exists_mem_of_ne_nil pod.Containers hne
        have hx := (hall (fun c => c.MemoryLimit)).1 h1 c hc
        have hy := (hany (fun c => c.MemoryLimit)).1 h2 c hc
        simp [hy] at hx
    · rcases h1 : pod.Containers.all (fun c => c.MemoryLimit.isSome) <;>
        rcases h2 : pod.Containers.any (fun c => c.MemoryLimit.isSome) <;>
        simp [← hall (fun c => c.MemoryLimit), ← hany (fun c => c.MemoryLimit), h1, h2]
    · rcases h1 : pod.Containers.all (fun c => c.MemoryRequest.isSome) <;>
        rcases h2 : pod.Containers.any (fun c => c.MemoryRequest.isSome) <;>
        simp [← hall (fun c => c.MemoryRequest), h1]
    · rcases h1 : pod.Containers.all (fun c => c.MemoryRequest.isSome) <;>
        rcases h2 : pod.Containers.any (fun c => c.MemoryRequest.isSome) <;>
        simp [← hany (fun c => c.MemoryRequest), h2]
      · obtain ⟨c, hc⟩ := List.exists_mem_of_ne_nil pod.Containers hne
        have hx := (hall (fun c => c.MemoryRequest)).1 h1 c hc
        have hy := (hany (fun c => c.MemoryRequest)).1 h2 c hc
        simp [hy] at hx
    · rcases h1 : pod.Containers.all (fun c => c.MemoryRequest.isSome) <;>
        rcases h2 : pod.Containers.any (fun c => c.MemoryRequest.isSome) <;>
        simp [← hall (fun c => c.MemoryRequest), ← hany (fun c => c.MemoryRequest), h1, h2]
  · intro he
    rcases hl : pod.MemoryLimit <;> rcases hr : pod.MemoryRequest <;>
      simp [limitState, he, limitStateSummarize, hl, hr]

/-- Witness for C7 at a concrete two-container pod with mixed limit
declarations: limits classify as Partial, and at a concrete pod with no
containers the fallback yields All/None. -/
theorem limitState_ternary_exhaustive_witness :
    (limitState
      { Namespace := "ns", PodName := "p",
        Containers := [{ ContainerName := "a", MemoryLimit := some 1, MemoryRequest := some 1 },
                       { ContainerName := "b" }] }).1 = "Partial" ∧
    (limitState
      { Namespace := "ns", PodName := "q", MemoryLimit := some 1,
        Containers := [] }).1 = "All" := by
  constructor
  · exact ((limitState_ternary_exhaustive
      { Namespace := "ns", PodName := "p",
        Containers := [{ ContainerName := "a", MemoryLimit := some 1, MemoryRequest := some 1 },
                       { ContainerName := "b" }] }).1 (by decide)).2.2.2.1.2 (by decide)
  · exact ((limitState_ternary_exhaustive
      { Namespace := "ns", PodName := "q", MemoryLimit := some 1,
        Containers := [] }).2 rfl).1

/-- `contains` (part_000 lines 408-416): pod membership by
(namespace, name) identity, not value equality. -/
def containsPod (pods : List PodMemoryInfo) (target : PodMemoryInfo) : Bool :=
  pods.any (fun p => p.Namespace == target.Namespace && p.PodName == target.PodName)

/-- `filterAllLimited` (internal/monitor/analysis_reporter.go lines 77-91):
keeps only pods whose limit-consistency for limits is All.  The Go early
return for an empty slice returns the slice unchanged, which coincides with
filtering. -/
def filterAllLimited (pods : List PodMemoryInfo) : List PodMemoryInfo :=
  pods.filter (fun p => (limitState p).1 == "All")

/-- The pods shown by `printHighUsagePods`
(internal/monitor/analysis_reporter.go lines 45-56). -/
def displayedHighUsagePods (a : AnalysisResult) : List PodMemoryInfo :=
  filterAllLimited a.HighUsagePods

/-- The pods shown by `printWarningPods`
(internal/monitor/analysis_reporter.go lines 59-74): filtered warning pods
that are not already in the filtered high-usage section. -/
def displayedWarningPods (a : AnalysisResult) : List PodMemoryInfo :=
  (filterAllLimited a.WarningPods).filter
    (fun p => !(containsPod (filterAllLimited a.HighUsagePods) p))

/-- **C3**: the displayed high-usage and warning sections only ever contain
pods whose limit-consistency for limits is All (so never Partial or None,
regardless of what the raw findings list mentions), and the deduplication of
a pod across the two sections is by (namespace, name) identity: a displayed
warning pod has no (namespace, name) match in the displayed high-usage
section. -/
theorem displayed_sections_all_limited (a : AnalysisResult) (p : PodMemoryInfo) :
    (p ∈ displayedHighUsagePods a ∨ p ∈ displayedWarningPods a →
      (limitState p).1 = "All" ∧ (limitState p).1 ≠ "Partial" ∧ (limitState p).1 ≠ "None") ∧
    (p ∈ displayedWarningPods a →
      ¬ ∃ q ∈ displayedHighUsagePods a,
        q.Namespace = p.Namespace ∧ q.PodName = p.PodName) ∧
    (∀ pods : List PodMemoryInfo,
      containsPod pods p = true ↔
        ∃ q ∈ pods, q.Namespace = p.Namespace ∧ q.PodName = p.PodName) := by
  have hcont : ∀ pods : List PodMemoryInfo,
      containsPod pods p = true ↔
        ∃ q ∈ pods, q.Namespace = p.Namespace ∧ q.PodName = p.PodName := by
    intro pods
    simp [containsPod, List.any_eq_true]
  refine ⟨?_, ?_, hcont⟩
  · intro hp
    have hall : (limitState p).1 = "All" := by
      rcases hp with hp | hp
      · have := List.mem_filter.1 hp
        simpa using this.2
      · have := List.mem_filter.1 (List.mem_filter.1 hp).1
        simpa using this.2
    refine ⟨hall, ?_, ?_⟩ <;> simp [hall]
  · intro hp
    have hnc := (List.mem_filter.1 hp).2
    intro hex
    have := (hcont (displayedHighUsagePods a)).2 hex
    simp [displayedHighUsagePods] at this hnc
    simp [this] at hnc

/-- Witness for C3: a concrete analysis result whose warning list holds an
all-limited pod and whose high-usage list holds a partially-limited pod; the
displayed warning section contains the former, which classifies as All. -/
theorem displayed_sections_all_limited_witness :
    (limitState
      { Namespace := "ns", PodName := "ok-pod",
        Containers := [{ ContainerName := "a", MemoryLimit := some 1 }] }).1 = "All" := by
  have h := displayed_sections_all_limited
    { Report := { Summary := { Timestamp := "" }, Pods := [] },
      HighUsagePods := [{ Namespace := "ns", PodName := "bad-pod",
                          Containers := [{ ContainerName := "a", MemoryLimit := some 1 },
                                         { ContainerName := "b" }] }],
      WarningPods := [{ Namespace := "ns", PodName := "ok-pod",
                        Containers := [{ ContainerName := "a", MemoryLimit := some 1 }] }],
      ProblemsFound := ["Pod ns/bad-pod is using 99.0% of its memory request"] }
    { Namespace := "ns", PodName := "ok-pod",
      Containers := [{ ContainerName := "a", MemoryLimit := some 1 }] }
  exact (h.1 (Or.inr (by decide))).1

/-- A raw container declaration at the collaborator boundary
(corev1.Container as consumed by memory.go): only the optional memory
request/limit byte quantities are read. -/
structure RawContainer where
  name : String
  request : Option Int := none
  limit : Option Int := none
deriving Repr, DecidableEq

/-- One entry of a pod's metrics sample (metricsv1beta1.ContainerMetrics as
consumed by memory.go): the optional memory usage for one container name.
`usage = none` models a usage ResourceList without a memory entry. -/
structure ContainerMetrics where
  name : String
  usage : Option Int := none
deriving Repr, DecidableEq

/-- A raw pod descriptor (corev1.Pod as consumed by processPodMemoryInfo). -/
structure RawPod where
  namespaceName : String
  podName : String
  phase : String := ""
  ready : Bool := false
  labels : List (String × String) := []
  annotations : List (String × String) := []
  containers : List RawContainer := []
deriving Repr, DecidableEq

/-- The metrics-by-name lookup in processPodMemoryInfo
(internal/k8s/memory.go lines 233-239 and 244): absent metrics, or a
container name with no metrics entry, yield no usage. -/
def lookupUsage (metrics : Option (List ContainerMetrics)) (name : String) : Option Int :=
  match metrics with
  | none => none
  | some ms =>
    match ms.find? (fun m => m.name == name) with
    | some m => m.usage
    | none => none

/-- `processContainerMemoryInfo` (internal/k8s/memory.go lines 189-207):
builds one ContainerMemoryInfo and reports (request value, limit value,
request present?, limit present?), the values defaulting to 0 when absent. -/
def processContainerMemoryInfo (container : RawContainer) (usage : Option Int) :
    ContainerMemoryInfo × Int × Int × Bool × Bool :=
  ({ ContainerName := container.name,
     CurrentUsage := usage,
     MemoryRequest := container.request,
     MemoryLimit := container.limit },
   container.request.getD 0, container.limit.getD 0,
   container.request.isSome, container.limit.isSome)

/-- The container aggregation loop of processPodMemoryInfo
(internal/k8s/memory.go lines 241-251), as structural recursion: running
request/limit totals and the all-containers-declare flags. -/
def aggregateContainers (metrics : Option (List ContainerMetrics)) :
    List RawContainer → List ContainerMemoryInfo × Int × Int × Bool × Bool
  | [] => ([], 0, 0, true, true)
  | container :: rest =>
    let r := processContainerMemoryInfo container (lookupUsage metrics container.name)
    let acc := aggregateContainers metrics rest
    (r.1 :: acc.1, r.2.1 + acc.2.1, r.2.2.1 + acc.2.2.1,
     r.2.2.2.1 && acc.2.2.2.1, r.2.2.2.2 && acc.2.2.2.2)

/-- The usage summation loop of processPodMemoryInfo
(internal/k8s/memory.go lines 261-269): total of the memory usages present
in the metrics entries. -/
def sumUsages : List ContainerMetrics → Int
  | [] => 0
  | m :: rest => m.usage.getD 0 + sumUsages rest

/-- `processPodMemoryInfo` (internal/k8s/memory.go lines 209-276): builds a
PodMemoryInfo from a raw pod and its optional metrics sample.  Pod-level
request/limit are set only when every container declares them; pod-level
usage is set only when metrics exist and the summed usage is positive. -/
def processPodMemoryInfo (pod : RawPod) (metrics : Option (List ContainerMetrics)) :
    PodMemoryInfo :=
  let agg := aggregateContainers metrics pod.containers
  { Namespace := pod.namespaceName,
    PodName := pod.podName,
    Phase := pod.phase,
    Ready := pod.ready,
    Labels := pod.labels,
    Annotations := pod.annotations,
    Containers := agg.1,
    MemoryRequest := if agg.2.2.2.1 = true then some agg.2.1 else none,
    MemoryLimit := if agg.2.2.2.2 = true then some agg.2.2.1 else none,
    CurrentUsage :=
      match metrics with
      | none => none
      | some ms => if 0 < sumUsages ms then some (sumUsages ms) else none }

theorem aggregateContainers_spec (metrics : Option (List ContainerMetrics))
    (cs : List RawContainer) :
    (aggregateContainers metrics cs).2.2.2.1 = cs.all (fun c => c.request.isSome) ∧
    (aggregateContainers metrics cs).2.1 = (cs.map (fun c => c.request.getD 0)).sum ∧
    (aggregateContainers metrics cs).2.2.2.2 = cs.all (fun c => c.limit.isSome) ∧
    (aggregateContainers metrics cs).2.2.1 = (cs.map (fun c => c.limit.getD 0)).sum := by
  induction cs with
  | nil => simp [aggregateContainers]
  | cons c rest ih =>
    simp only [aggregateContainers, processContainerMemoryInfo, List.all_cons,
      List.map_cons, List.sum_cons]
    exact ⟨by rw [ih.1], by rw [ih.2.1], by rw [ih.2.2.1], by rw [ih.2.2.2]⟩

/-- **C2**: pod-level memoryRequest is present iff every container declares
a memory request, and when present it equals the exact integer sum of all
container requests; the same holds for memoryLimit, so a single container
missing the value makes the pod-level total absent. -/
theorem podLevel_request_limit_all_or_nothing (pod : RawPod)
    (metrics : Option (List ContainerMetrics)) :
    ((processPodMemoryInfo pod metrics).MemoryRequest.isSome = true ↔
      ∀ c ∈ pod.containers, c.request.isSome = true) ∧
    ((∀ c ∈ pod.containers, c.request.isSome = true) →
      (processPodMemoryInfo pod metrics).MemoryRequest =
        some ((pod.containers.map (fun c => c.request.getD 0)).sum)) ∧
    ((processPodMemoryInfo pod metrics).MemoryLimit.isSome = true ↔
      ∀ c ∈ pod.containers, c.limit.isSome = true) ∧
    ((∀ c ∈ pod.containers, c.limit.isSome = true) →
      (processPodMemoryInfo pod metrics).MemoryLimit =
        some ((pod.containers.map (fun c => c.limit.getD 0)).sum)) := by
  have h := aggregateContainers_spec metrics pod.containers
  refine ⟨?_, ?_, ?_, ?_⟩
  · simp only [processPodMemoryInfo]
    rcases hr : (aggregateContainers metrics pod.containers).2.2.2.1 <;>
      simp [hr, ← List.all_eq_true, h.1 ▸ hr]
  · intro hall
    have hflag : (aggregateContainers metrics pod.containers).2.2.2.1 = true := by
      rw [h.1, List.all_eq_true]; exact hall
    simp [processPodMemoryInfo, hflag, h.2.1]
  · simp only [processPodMemoryInfo]
    rcases hr : (aggregateContainers metrics pod.containers).2.2.2.2 <;>
      simp [hr, ← List.all_eq_true, h.2.2.1 ▸ hr]
  · intro hall
    have hflag : (aggregateContainers metrics pod.containers).2.2.2.2 = true := by
      rw [h.2.2.1, List.all_eq_true]; exact hall
    simp [processPodMemoryInfo, hflag, h.2.2.2]

/-- Witness for C2 at a concrete two-container pod with both requests
declared but one limit missing: the request total is the exact sum and the
limit total is absent. -/
theorem podLevel_request_limit_all_or_nothing_witness :
    (processPodMemoryInfo
      { namespaceName := "ns", podName := "p",
        containers := [{ name := "a", request := some 100, limit := some 200 },
                       { name := "b", request := some 50 }] } none).MemoryRequest =
      some 150 ∧
    (processPodMemoryInfo
      { namespaceName := "ns", podName := "p",
        containers := [{ name := "a", request := some 100, limit := some 200 },
                       { name := "b", request := some 50 }] } none).MemoryLimit = none := by
  have h := podLevel_request_limit_all_or_nothing
    { namespaceName := "ns", podName := "p",
      containers := [{ name := "a", request := some 100, limit := some 200 },
                     { name := "b", request := some 50 }] } none
  constructor
  · exact (h.2.1 (by decide)).trans (by decide)
  · have := h.2.2.1
    rcases hml : (processPodMemoryInfo
      { namespaceName := "ns", podName := "p",
        containers := [{ name := "a", request := some 100, limit := some 200 },
                       { name := "b", request := some 50 }] } none).MemoryLimit with _ | v
    · rfl
    · have hx := this.1 (by simp [hml])
      exact absurd (hx { name := "b", request := some 50 } (by decide)) (by decide)

theorem sumUsages_eq_map_sum (ms : List ContainerMetrics) :
    sumUsages ms = (ms.map (fun m => m.usage.getD 0)).sum := by
  induction ms with
  | nil => simp [sumUsages]
  | cons m rest ih => simp [sumUsages, ih]

/-- **C6 counterexample**: a pod whose single container reports a measured
usage of exactly 0 bytes.  The summed usage is 0 although a container did
report usage, and the code still leaves pod-level currentUsage absent —
contradicting the claim that currentUsage stays absent only when the sum is
zero AND no container reported usage (which would force `some 0` here). -/
theorem currentUsage_measured_zero_counterexample :
    (processPodMemoryInfo
      { namespaceName := "ns", podName := "zero",
        containers := [{ name := "app", request := some 100, limit := some 200 }] }
      (some [{ name := "app", usage := some 0 }])).CurrentUsage = none ∧
    ¬ (∀ m ∈ [({ name := "app", usage := some 0 } : ContainerMetrics)], m.usage = none) ∧
    sumUsages [({ name := "app", usage := some 0 } : ContainerMetrics)] = 0 := by
  refine ⟨by decide, ?_, by decide⟩
  intro h
  exact absurd (h { name := "app", usage := some 0 } (by decide)) (by decide)

/-- **C6 amended**: pod-level currentUsage equals the sum of the container
usages that are present when metrics exist and that sum is positive, and it
stays absent exactly when metrics are missing or the summed usage is not
positive — so a pod whose containers report a measured usage of zero bytes
is NOT distinguished from a pod with no usage data: both end up absent. -/
theorem currentUsage_positive_sum (pod : RawPod)
    (metrics : Option (List ContainerMetrics)) :
    (processPodMemoryInfo pod metrics).CurrentUsage =
      (match metrics with
       | none => none
       | some ms =>
         if 0 < (ms.map (fun m => m.usage.getD 0)).sum
         then some ((ms.map (fun m => m.usage.getD 0)).sum)
         else none) := by
  rcases metrics with _ | ms
  · rfl
  · simp [processPodMemoryInfo, sumUsages_eq_map_sum]

/-- **C10**: a pod whose raw container list is empty gets pod-level
memoryRequest and memoryLimit set to present 0-byte totals (the
all-containers condition holds vacuously), and the limit-consistency
fallback then classifies both limits and requests as All. -/
theorem emptyContainers_zero_totals_all_state (pod : RawPod)
    (metrics : Option (List ContainerMetrics)) (h : pod.containers = []) :
    (processPodMemoryInfo pod metrics).MemoryRequest = some 0 ∧
    (processPodMemoryInfo pod metrics).MemoryLimit = some 0 ∧
    limitState (processPodMemoryInfo pod metrics) = ("All", "All") := by
  refine ⟨?_, ?_, ?_⟩ <;>
    simp [processPodMemoryInfo, h, aggregateContainers, limitState, limitStateSummarize]

/-- Witness for C10 at a concrete pod with no containers. -/
theorem emptyContainers_zero_totals_all_state_witness :
    (processPodMemoryInfo { namespaceName := "ns", podName := "bare" } none).MemoryRequest =
      some 0 ∧
    limitState (processPodMemoryInfo { namespaceName := "ns", podName := "bare" } none) =
      ("All", "All") := by
  have h := emptyContainers_zero_totals_all_state
    { namespaceName := "ns", podName := "bare" } none rfl
  exact ⟨h.1, h.2.2⟩

/-- The per-namespace result consumed by the collection loop: either the
namespace's pod list with its per-namespace summary, or a retrieval error
(the `err` branch of getNamespacePodsMemoryInfo). -/
abbrev NamespaceResult := Except String (List PodMemoryInfo × MemorySummary)

/-- The summary update of one successful namespace iteration
(internal/k8s/memory.go lines 107-117). -/
def addNamespaceToSummary (s : MemorySummary) (pods : List PodMemoryInfo)
    (nsUsage : MemorySummary) : MemorySummary :=
  { s with
    TotalPods := s.TotalPods + pods.length,
    TotalMemoryUsage := s.TotalMemoryUsage + nsUsage.TotalMemoryUsage,
    TotalMemoryLimit := s.TotalMemoryLimit + nsUsage.TotalMemoryLimit,
    TotalMemoryRequest := s.TotalMemoryRequest + nsUsage.TotalMemoryRequest,
    RunningPods := s.RunningPods + nsUsage.RunningPods,
    PodsWithMetrics := s.PodsWithMetrics + nsUsage.PodsWithMetrics,
    PodsWithLimits := s.PodsWithLimits + nsUsage.PodsWithLimits,
    PodsWithRequests := s.PodsWithRequests + nsUsage.PodsWithRequests }

/-- The per-namespace loop of getAllNamespacesPodsMemoryInfo
(internal/k8s/memory.go lines 97-118), as structural recursion over the
namespace results: a failed namespace is skipped (logged warning in Go) and
contributes nothing; a successful one appends its pods and folds its
per-namespace summary into the running totals. -/
def foldNamespaceResults : List NamespaceResult →
    List PodMemoryInfo × MemorySummary → List PodMemoryInfo × MemorySummary
  | [], acc => acc
  | Except.error _ :: rest, acc => foldNamespaceResults rest acc
  | Except.ok (pods, nsUsage) :: rest, acc =>
    foldNamespaceResults rest (acc.1 ++ pods, addNamespaceToSummary acc.2 pods nsUsage)

/-- `getAllNamespacesPodsMemoryInfo` (internal/k8s/memory.go lines 78-127)
after namespace listing: the summary starts with NamespaceCount equal to the
number of namespaces queried and zero totals, then every namespace result is
folded in. -/
def getAllNamespacesPodsMemoryInfo (results : List NamespaceResult) :
    List PodMemoryInfo × MemorySummary :=
  foldNamespaceResults results
    ([], { Timestamp := "now", NamespaceCount := results.length })

theorem foldNamespaceResults_spec (results : List NamespaceResult)
    (acc : List PodMemoryInfo × MemorySummary) :
    (foldNamespaceResults results acc).1 =
      acc.1 ++ (results.filterMap Except.toOption).flatMap Prod.fst ∧
    (foldNamespaceResults results acc).2 =
      { acc.2 with
        TotalPods := acc.2.TotalPods +
          ((results.filterMap Except.toOption).map (fun r => r.1.length)).sum,
        TotalMemoryUsage := acc.2.TotalMemoryUsage +
          ((results.filterMap Except.toOption).map (fun r => r.2.TotalMemoryUsage)).sum,
        TotalMemoryLimit := acc.2.TotalMemoryLimit +
          ((results.filterMap Except.toOption).map (fun r => r.2.TotalMemoryLimit)).sum,
        TotalMemoryRequest := acc.2.TotalMemoryRequest +
          ((results.filterMap Except.toOption).map (fun r => r.2.TotalMemoryRequest)).sum,
        RunningPods := acc.2.RunningPods +
          ((results.filterMap Except.toOption).map (fun r => r.2.RunningPods)).sum,
        PodsWithMetrics := acc.2.PodsWithMetrics +
          ((results.filterMap Except.toOption).map (fun r => r.2.PodsWithMetrics)).sum,
        PodsWithLimits := acc.2.PodsWithLimits +
          ((results.filterMap Except.toOption).map (fun r => r.2.PodsWithLimits)).sum,
        PodsWithRequests := acc.2.PodsWithRequests +
          ((results.filterMap Except.toOption).map (fun r => r.2.PodsWithRequests)).sum } := by
  induction results generalizing acc with
  | nil => simp [foldNamespaceResults]
  | cons r rest ih =>
    rcases r with e | ⟨pods, nsUsage⟩
    · simpa [foldNamespaceResults, Except.toOption] using ih acc
    · have h := ih (acc.1 ++ pods, addNamespaceToSummary acc.2 pods nsUsage)
      simp only [foldNamespaceResults, Except.toOption, List.filterMap_cons, List.map_cons,
        List.flatMap_cons, List.sum_cons] at h ⊢
      refine ⟨by rw [h.1]; simp, ?_⟩
      rw [h.2]
      congr 1 <;> simp [addNamespaceToSummary] <;> omega

/-- **C8**: when one namespace fails while others succeed the cycle is not
aborted: the final summary's NamespaceCount is the total number of
namespaces queried, while the pod list, TotalPods, and every other counter
and byte total come exclusively from the namespaces whose retrieval
succeeded. -/
theorem namespace_failure_isolated (results : List NamespaceResult) :
    (getAllNamespacesPodsMemoryInfo results).2.NamespaceCount = results.length ∧
    (getAllNamespacesPodsMemoryInfo results).1 =
      (results.filterMap Except.toOption).flatMap Prod.fst ∧
    (getAllNamespacesPodsMemoryInfo results).2.TotalPods =
      ((results.filterMap Except.toOption).map (fun r => r.1.length)).sum ∧
    (getAllNamespacesPodsMemoryInfo results).2.RunningPods =
      ((results.filterMap Except.toOption).map (fun r => r.2.RunningPods)).sum ∧
    (getAllNamespacesPodsMemoryInfo results).2.PodsWithMetrics =
      ((results.filterMap Except.toOption).map (fun r => r.2.PodsWithMetrics)).sum ∧
    (getAllNamespacesPodsMemoryInfo results).2.PodsWithLimits =
      ((results.filterMap Except.toOption).map (fun r => r.2.PodsWithLimits)).sum ∧
    (getAllNamespacesPodsMemoryInfo results).2.PodsWithRequests =
      ((results.filterMap Except.toOption).map (fun r => r.2.PodsWithRequests)).sum ∧
    (getAllNamespacesPodsMemoryInfo results).2.TotalMemoryUsage =
      ((results.filterMap Except.toOption).map (fun r => r.2.TotalMemoryUsage)).sum ∧
    (getAllNamespacesPodsMemoryInfo results).2.TotalMemoryLimit =
      ((results.filterMap Except.toOption).map (fun r => r.2.TotalMemoryLimit)).sum ∧
    (getAllNamespacesPodsMemoryInfo results).2.TotalMemoryRequest =
      ((results.filterMap Except.toOption).map (fun r => r.2.TotalMemoryRequest)).sum := by
  have h := foldNamespaceResults_spec results
    ([], { Timestamp := "now", NamespaceCount := results.length })
  refine ⟨?_, ?_, ?_, ?_, ?_, ?_, ?_, ?_, ?_, ?_⟩ <;>
    simp [getAllNamespacesPodsMemoryInfo, h.1, h.2]

/-- Textual form of an optional percentage inside a finding message.  The Go
code prints `%.1f`; the exact rational text is used here, which keeps the
message injective in the percentage and does not affect any analysed
property. -/
def percentText (o : Option ℚ) : String :=
  match o with
  | some v => toString v ++ "%"
  | none => "N/A"

/-- Finding for a pod near its memory request
(internal/monitor/monitor.go lines 106-108). -/
def requestUsageFinding (p : PodMemoryInfo) : String :=
  "Pod " ++ p.Namespace ++ "/" ++ p.PodName ++ " is using " ++
    percentText p.UsagePercent ++ " of its memory request"

/-- Finding for a pod near its memory limit
(internal/monitor/monitor.go lines 115-117). -/
def limitUsageFinding (p : PodMemoryInfo) : String :=
  "Pod " ++ p.Namespace ++ "/" ++ p.PodName ++ " is using " ++
    percentText p.LimitUsagePercent ++ " of its memory limit"

/-- Finding for a pod with no memory limit
(internal/monitor/monitor.go lines 122-124). -/
def noLimitFinding (p : PodMemoryInfo) : String :=
  "Pod " ++ p.Namespace ++ "/" ++ p.PodName ++ " has no memory limit defined"

/-- Finding for a pod with no memory request
(internal/monitor/monitor.go lines 129-131). -/
def noRequestFinding (p : PodMemoryInfo) : String :=
  "Pod " ++ p.Namespace ++ "/" ++ p.PodName ++ " has no memory request defined"

/-- The per-pod body of the analysis loop in `AnalyzeMemoryUsage`
(internal/monitor/monitor.go lines 91-133): the triple of additions this pod
makes to (WarningPods, HighUsagePods, ProblemsFound).  A pod with no usage
data is skipped; otherwise its percentages are recomputed and the threshold
checks appended in source order. -/
def analyzePodUsage (pod : PodMemoryInfo) (cfg : Config) :
    List PodMemoryInfo × List PodMemoryInfo × List String :=
  if pod.CurrentUsage = none then ([], [], [])
  else
    let p := pod.CalculateUsagePercent
    let warnHit := percentAtLeast p.UsagePercent cfg.MemoryWarningPercent
    let reqHighHit := warnHit && percentAtLeast p.UsagePercent 95
    let limHighHit := percentAtLeast p.LimitUsagePercent 90
    ((if warnHit = true then [p] else []),
     (if reqHighHit = true then [p] else []) ++ (if limHighHit = true then [p] else []),
     (if reqHighHit = true then [requestUsageFinding p] else []) ++
       (if limHighHit = true then [limitUsageFinding p] else []) ++
       (if p.MemoryLimit = none then [noLimitFinding p] else []) ++
       (if p.MemoryRequest = none then [noRequestFinding p] else []))

/-- `AnalyzeMemoryUsage` (internal/monitor/monitor.go lines 77-141), pure
core: folds every pod of the collected report through the per-pod analysis,
concatenating the additions in pod order. -/
def AnalyzeMemoryUsage (report : MemoryReport) (cfg : Config) : AnalysisResult :=
  { Report := report,
    WarningPods := report.Pods.flatMap (fun pod => (analyzePodUsage pod cfg).1),
    HighUsagePods := report.Pods.flatMap (fun pod => (analyzePodUsage pod cfg).2.1),
    ProblemsFound := report.Pods.flatMap (fun pod => (analyzePodUsage pod cfg).2.2) }

/-- **C9**: a fully configured pod that clears the request threshold
(usage ≥ 95% of request, and ≥ the warning threshold) and the limit
threshold (usage ≥ 90% of limit) is appended to HighUsagePods twice — once
by the request-ratio check and once by the limit-ratio check — with two
findings, one per check, while WarningPods receives it once; the
high-usage list is not deduplicated, so its reported length (2) exceeds the
number of distinct pods (1). -/
theorem high_usage_double_append (pod : PodMemoryInfo) (cfg : Config)
    (s : MemorySummary) (u r l : Int)
    (hu : pod.CurrentUsage = some u) (hr : pod.MemoryRequest = some r)
    (hl : pod.MemoryLimit = some l) (hrpos : 0 < r) (hlpos : 0 < l)
    (h95 : 95 ≤ (u : ℚ) / (r : ℚ) * 100)
    (hwarn : cfg.MemoryWarningPercent ≤ (u : ℚ) / (r : ℚ) * 100)
    (h90 : 90 ≤ (u : ℚ) / (l : ℚ) * 100) :
    (AnalyzeMemoryUsage { Summary := s, Pods := [pod] } cfg).HighUsagePods =
      [pod.CalculateUsagePercent, pod.CalculateUsagePercent] ∧
    (AnalyzeMemoryUsage { Summary := s, Pods := [pod] } cfg).ProblemsFound =
      [requestUsageFinding pod.CalculateUsagePercent,
       limitUsageFinding pod.CalculateUsagePercent] ∧
    (AnalyzeMemoryUsage { Summary := s, Pods := [pod] } cfg).WarningPods =
      [pod.CalculateUsagePercent] ∧
    (AnalyzeMemoryUsage { Summary := s, Pods := [pod] } cfg).HighUsagePods.length = 2 := by
  have hp : pod.CalculateUsagePercent =
      { pod with UsagePercent := some ((u : ℚ) / (r : ℚ) * 100),
                 LimitUsagePercent := some ((u : ℚ) / (l : ℚ) * 100) } := by
    rw [PodMemoryInfo.CalculateUsagePercent]
    simp only [hu, hr, hl, if_pos hrpos]
    simp [if_pos hlpos]
  have hcu : pod.CurrentUsage ≠ none := by simp [hu]
  refine ⟨?_, ?_, ?_, ?_⟩ <;>
    simp [AnalyzeMemoryUsage, analyzePodUsage, hu, hp, hr, hl, percentAtLeast,
      h95, hwarn, h90]

/-- Witness for C9: a concrete pod using 95 of its 100-byte request and
95 of its 100-byte limit, with an 80% warning threshold, yields a high-usage
list of length two, two findings, and the two findings differ. -/
theorem high_usage_double_append_witness :
    (AnalyzeMemoryUsage
      { Summary := { Timestamp := "" },
        Pods := [{ Namespace := "ns", PodName := "hot", CurrentUsage := some 95,
                   MemoryRequest := some 100, MemoryLimit := some 100,
                   Phase := "Running", Ready := true }] }
      { MemoryWarningPercent := 80 }).HighUsagePods.length = 2 ∧
    (AnalyzeMemoryUsage
      { Summary := { Timestamp := "" },
        Pods := [{ Namespace := "ns", PodName := "hot", CurrentUsage := some 95,
                   MemoryRequest := some 100, MemoryLimit := some 100,
                   Phase := "Running", Ready := true }] }
      { MemoryWarningPercent := 80 }).ProblemsFound.length = 2 := by
  have h := high_usage_double_append
    { Namespace := "ns", PodName := "hot", CurrentUsage := some 95,
      MemoryRequest := some 100, MemoryLimit := some 100,
      Phase := "Running", Ready := true }
    { MemoryWarningPercent := 80 } { Timestamp := "" } 95 100 100
    rfl rfl rfl (by decide) (by decide) (by norm_num) (by norm_num) (by norm_num)
  exact ⟨h.2.2.2, by rw [h.2.1]; rfl⟩

/-- Finding for a container near its memory request.
Modelled from the spec: the current analyzer revision, whose test
(internal/monitor/monitor_test.go, `analyzeReport`) expects per-container
messages of the form "Pod ns/p container a is using …", is absent from src;
the message shape follows that test and §4.4. -/
def containerRequestUsageFinding (pod : PodMemoryInfo) (c : ContainerMemoryInfo) : String :=
  "Pod " ++ pod.Namespace ++ "/" ++ pod.PodName ++ " container " ++ c.ContainerName ++
    " is using " ++ percentText c.UsagePercent ++ " of its memory request"

/-- Finding for a container near its memory limit.
Modelled from the spec, like `containerRequestUsageFinding`. -/
def containerLimitUsageFinding (pod : PodMemoryInfo) (c : ContainerMemoryInfo) : String :=
  "Pod " ++ pod.Namespace ++ "/" ++ pod.PodName ++ " container " ++ c.ContainerName ++
    " is using " ++ percentText c.LimitUsagePercent ++ " of its memory limit"

/-- Finding for a container with no memory limit.
Modelled from the spec; the message matches the test's expectation
"Pod ns/p container b has no memory limit defined". -/
def containerNoLimitFinding (pod : PodMemoryInfo) (c : ContainerMemoryInfo) : String :=
  "Pod " ++ pod.Namespace ++ "/" ++ pod.PodName ++ " container " ++ c.ContainerName ++
    " has no memory limit defined"

/-- Finding for a container with no memory request.
Modelled from the spec, like `containerNoLimitFinding`. -/
def containerNoRequestFinding (pod : PodMemoryInfo) (c : ContainerMemoryInfo) : String :=
  "Pod " ++ pod.Namespace ++ "/" ++ pod.PodName ++ " container " ++ c.ContainerName ++
    " has no memory request defined"

/-- Per-container analysis step.
Modelled from the spec: `analyzeReport`'s container loop is absent from src
(only its test is).  §4.4: the same threshold algorithm is evaluated per
container — an entity with no usage data is skipped; usage/request ≥
warning-percent adds the pod to the warning set and, at ≥ 95%, to the
high-usage set with a finding; usage/limit ≥ 90% adds to the high-usage set
with a finding; a missing limit or request each contributes one finding. -/
def analyzeContainerUsage (pod : PodMemoryInfo) (c : ContainerMemoryInfo) (cfg : Config) :
    List PodMemoryInfo × List PodMemoryInfo × List String :=
  if c.CurrentUsage = none then ([], [], [])
  else
    let cc := c.CalculateUsagePercent
    let warnHit := percentAtLeast cc.UsagePercent cfg.MemoryWarningPercent
    let reqHighHit := warnHit && percentAtLeast cc.UsagePercent 95
    let limHighHit := percentAtLeast cc.LimitUsagePercent 90
    ((if warnHit = true then [pod] else []),
     (if reqHighHit = true then [pod] else []) ++ (if limHighHit = true then [pod] else []),
     (if reqHighHit = true then [containerRequestUsageFinding pod cc] else []) ++
       (if limHighHit = true then [containerLimitUsageFinding pod cc] else []) ++
       (if cc.MemoryLimit = none then [containerNoLimitFinding pod cc] else []) ++
       (if cc.MemoryRequest = none then [containerNoRequestFinding pod cc] else []))

/-- `analyzeReport`.
Modelled from the spec: this pure analyzer (referenced by
internal/monitor/monitor_test.go but not defined under src) evaluates the
§4.4 threshold algorithm per pod AND per container, both levels
independently, producing separate findings; the pod level reuses the loop
body of the in-src `AnalyzeMemoryUsage`. -/
def analyzeReport (report : MemoryReport) (cfg : Config) : AnalysisResult :=
  { Report := report,
    WarningPods := report.Pods.flatMap (fun pod =>
      (analyzePodUsage pod cfg).1 ++
        pod.Containers.flatMap (fun c => (analyzeContainerUsage pod c cfg).1)),
    HighUsagePods := report.Pods.flatMap (fun pod =>
      (analyzePodUsage pod cfg).2.1 ++
        pod.Containers.flatMap (fun c => (analyzeContainerUsage pod c cfg).2.1)),
    ProblemsFound := report.Pods.flatMap (fun pod =>
      (analyzePodUsage pod cfg).2.2 ++
        pod.Containers.flatMap (fun c => (analyzeContainerUsage pod c cfg).2.2)) }

theorem containerCalculate_preserves (c : ContainerMemoryInfo) :
    (c.CalculateUsagePercent).CurrentUsage = c.CurrentUsage ∧
    (c.CalculateUsagePercent).MemoryRequest = c.MemoryRequest ∧
    (c.CalculateUsagePercent).MemoryLimit = c.MemoryLimit := by
  rcases c with ⟨n, cu, mr, ml, up, lp⟩
  rcases cu with _ | u
  · simp [ContainerMemoryInfo.CalculateUsagePercent]
  · rcases mr with _ | r <;> rcases ml with _ | l
    · simp [ContainerMemoryInfo.CalculateUsagePercent]
    · by_cases hl : (0 : ℤ) < l <;>
        simp [ContainerMemoryInfo.CalculateUsagePercent, hl]
    · by_cases hr : (0 : ℤ) < r <;>
        simp [ContainerMemoryInfo.CalculateUsagePercent, hr]
    · by_cases hr : (0 : ℤ) < r <;> by_cases hl : (0 : ℤ) < l <;>
        simp [ContainerMemoryInfo.CalculateUsagePercent, hr, hl]

/-- **C5**: the problem detector evaluates the threshold algorithm per pod
and per container, both levels producing separate findings.  For any
container of any pod of the report that has usage data: clearing the
warning ratio places the pod in the warning set; clearing both the warning
and the 95% request ratio places it in the high-usage set with a
per-container finding; clearing the 90% limit ratio places it in the
high-usage set with a per-container finding; missing limit or request each
contribute one finding.  The pod level behaves the same through its own
entries, and an entity with no usage data contributes nothing. -/
theorem analyzeReport_per_entity (report : MemoryReport) (cfg : Config)
    (pod : PodMemoryInfo) (hm : pod ∈ report.Pods) (c : ContainerMemoryInfo)
    (hc : c ∈ pod.Containers) :
    (percentAtLeast (c.CalculateUsagePercent).UsagePercent cfg.MemoryWarningPercent = true →
      c.CurrentUsage ≠ none →
      pod ∈ (analyzeReport report cfg).WarningPods) ∧
    (percentAtLeast (c.CalculateUsagePercent).UsagePercent cfg.MemoryWarningPercent = true →
      percentAtLeast (c.CalculateUsagePercent).UsagePercent 95 = true →
      c.CurrentUsage ≠ none →
      pod ∈ (analyzeReport report cfg).HighUsagePods ∧
      containerRequestUsageFinding pod (c.CalculateUsagePercent) ∈
        (analyzeReport report cfg).ProblemsFound) ∧
    (percentAtLeast (c.CalculateUsagePercent).LimitUsagePercent 90 = true →
      c.CurrentUsage ≠ none →
      pod ∈ (analyzeReport report cfg).HighUsagePods ∧
      containerLimitUsageFinding pod (c.CalculateUsagePercent) ∈
        (analyzeReport report cfg).ProblemsFound) ∧
    (c.CurrentUsage ≠ none → c.MemoryLimit = none →
      containerNoLimitFinding pod (c.CalculateUsagePercent) ∈
        (analyzeReport report cfg).ProblemsFound) ∧
    (c.CurrentUsage ≠ none → c.MemoryRequest = none →
      containerNoRequestFinding pod (c.CalculateUsagePercent) ∈
        (analyzeReport report cfg).ProblemsFound) ∧
    (c.CurrentUsage = none → analyzeContainerUsage pod c cfg = ([], [], [])) ∧
    (pod.CurrentUsage = none → analyzePodUsage pod cfg = ([], [], [])) ∧
    (percentAtLeast (pod.CalculateUsagePercent).UsagePercent cfg.MemoryWarningPercent = true →
      pod.CurrentUsage ≠ none →
      pod.CalculateUsagePercent ∈ (analyzeReport report cfg).WarningPods) ∧
    (percentAtLeast (pod.CalculateUsagePercent).LimitUsagePercent 90 = true →
      pod.CurrentUsage ≠ none →
      pod.CalculateUsagePercent ∈ (analyzeReport report cfg).HighUsagePods ∧
      limitUsageFinding pod.CalculateUsagePercent ∈
        (analyzeReport report cfg).ProblemsFound) := by
  have hcu := containerCalculate_preserves c
  refine ⟨?_, ?_, ?_, ?_, ?_, ?_, ?_, ?_, ?_⟩
  · intro hwarn hcur
    refine List.mem_flatMap.2 ⟨pod, hm, List.mem_append_right _ ?_⟩
    exact List.mem_flatMap.2 ⟨c, hc, by simp [analyzeContainerUsage, hcur, hwarn]⟩
  · intro hwarn h95 hcur
    constructor
    · refine List.mem_flatMap.2 ⟨pod, hm, List.mem_append_right _ ?_⟩
      exact List.mem_flatMap.2 ⟨c, hc, by simp [analyzeContainerUsage, hcur, hwarn, h95]⟩
    · refine List.mem_flatMap.2 ⟨pod, hm, List.mem_append_right _ ?_⟩
      exact List.mem_flatMap.2 ⟨c, hc, by simp [analyzeContainerUsage, hcur, hwarn, h95]⟩
  · intro h90 hcur
    constructor
    · refine List.mem_flatMap.2 ⟨pod, hm, List.mem_append_right _ ?_⟩
      exact List.mem_flatMap.2 ⟨c, hc, by simp [analyzeContainerUsage, hcur, h90]⟩
    · refine List.mem_flatMap.2 ⟨pod, hm, List.mem_append_right _ ?_⟩
      exact List.mem_flatMap.2 ⟨c, hc, by simp [analyzeContainerUsage, hcur, h90]⟩
  · intro hcur hnl
    refine List.mem_flatMap.2 ⟨pod, hm, List.mem_append_right _ ?_⟩
    refine List.mem_flatMap.2 ⟨c, hc, ?_⟩
    have hl : (c.CalculateUsagePercent).MemoryLimit = none := hcu.2.2.trans hnl
    simp [analyzeContainerUsage, hcur, hl]
  · intro hcur hnr
    refine List.mem_flatMap.2 ⟨pod, hm, List.mem_append_right _ ?_⟩
    refine List.mem_flatMap.2 ⟨c, hc, ?_⟩
    have hr : (c.CalculateUsagePercent).MemoryRequest = none := hcu.2.1.trans hnr
    simp [analyzeContainerUsage, hcur, hr]
  · intro hcur
    simp [analyzeContainerUsage, hcur]
  · intro hcur
    simp [analyzePodUsage, hcur]
  · intro hwarn hcur
    refine List.mem_flatMap.2 ⟨pod, hm, List.mem_append_left _ ?_⟩
    simp [analyzePodUsage, hcur, hwarn]
  · intro h90 hcur
    constructor
    · refine List.mem_flatMap.2 ⟨pod, hm, List.mem_append_left _ ?_⟩
      simp [analyzePodUsage, hcur, h90]
    · refine List.mem_flatMap.2 ⟨pod, hm, List.mem_append_left _ ?_⟩
      simp [analyzePodUsage, hcur, h90]

/-- Concrete container over both thresholds (usage 500 of request 400 and
limit 512, the ratios of the in-repo analyzer test). -/
def testContainerA : ContainerMemoryInfo :=
  { ContainerName := "a", CurrentUsage := some 500,
    MemoryRequest := some 400, MemoryLimit := some 512 }

/-- Concrete container with usage but no declared limit. -/
def testContainerB : ContainerMemoryInfo :=
  { ContainerName := "b", CurrentUsage := some 100, MemoryRequest := some 300 }

/-- Concrete pod with the two test containers and no pod-level data. -/
def testMixedPod : PodMemoryInfo :=
  { Namespace := "ns", PodName := "p", Containers := [testContainerA, testContainerB] }

/-- Witness for C5 at the analyzer test scenario: container a's limit ratio
places the pod in the high-usage set with a container finding, and
container b with no limit contributes a missing-limit finding. -/
theorem analyzeReport_per_entity_witness :
    testMixedPod ∈ (analyzeReport { Summary := { Timestamp := "" }, Pods := [testMixedPod] }
      { MemoryWarningPercent := 80 }).HighUsagePods ∧
    containerLimitUsageFinding testMixedPod (testContainerA.CalculateUsagePercent) ∈
      (analyzeReport { Summary := { Timestamp := "" }, Pods := [testMixedPod] }
        { MemoryWarningPercent := 80 }).ProblemsFound ∧
    containerNoLimitFinding testMixedPod (testContainerB.CalculateUsagePercent) ∈
      (analyzeReport { Summary := { Timestamp := "" }, Pods := [testMixedPod] }
        { MemoryWarningPercent := 80 }).ProblemsFound := by
  have hA := analyzeReport_per_entity
    { Summary := { Timestamp := "" }, Pods := [testMixedPod] }
    { MemoryWarningPercent := 80 } testMixedPod (by simp) testContainerA
    (by simp [testMixedPod])
  have hB := analyzeReport_per_entity
    { Summary := { Timestamp := "" }, Pods := [testMixedPod] }
    { MemoryWarningPercent := 80 } testMixedPod (by simp) testContainerB
    (by simp [testMixedPod])
  have h90 : percentAtLeast (testContainerA.CalculateUsagePercent).LimitUsagePercent 90 = true := by
    simp [testContainerA, ContainerMemoryInfo.CalculateUsagePercent, percentAtLeast]
    norm_num
  have hAu : testContainerA.CurrentUsage ≠ none := by simp [testContainerA]
  have hBu : testContainerB.CurrentUsage ≠ none := by simp [testContainerB]
  exact ⟨(hA.2.2.1 h90 hAu).1, (hA.2.2.1 h90 hAu).2, hB.2.2.2.1 hBu rfl⟩

/-- `getContainerMemoryStatus`.
Modelled from the spec: the function is absent from src — only its tests
(part_004 `TestBuildCSVRecord`, part_005
`TestGetContainerMemoryStatus_PerContainerEvaluation`) reference it.  Per
§4.2 it applies the same eight-status precedence as the pod classifier but
to the container's own usage/request/limit and stored percentages, with
readiness and phase taken from the enclosing pod. -/
def getContainerMemoryStatus (pod : PodMemoryInfo) (container : ContainerMemoryInfo)
    (cfg : Config) : String :=
  if container.CurrentUsage = none then "no_data"
  else if container.MemoryRequest = none ∧ container.MemoryLimit = none then "no_config"
  else if container.MemoryRequest = none then "no_request"
  else if container.MemoryLimit = none then "no_limit"
  else if (percentAtLeast container.UsagePercent 95 ||
      percentAtLeast container.LimitUsagePercent 90) = true then "critical"
  else if percentAtLeast container.UsagePercent cfg.MemoryWarningPercent = true then "warning"
  else if pod.Ready = false ∨ ¬ pod.Phase = "Running" then "not_ready"
  else "ok"

/-- `formatBytesForCSV` (part_000 lines 164-169): raw byte count, or the
empty string when absent. -/
def formatBytesForCSV (q : Option Int) : String :=
  match q with
  | none => ""
  | some v => toString v

/-- `formatPercentForCSV` (part_000 lines 171-176).  The Go code prints
`%.2f`; the exact rational text is used here, which does not affect any
analysed property. -/
def formatPercentForCSV (percent : Option ℚ) : String :=
  match percent with
  | none => ""
  | some v => toString v

/-- Lookup of one requested label key in the pod's label map
(part_000 lines 100-107): missing keys render as the empty string. -/
def labelValue (labels : List (String × String)) (key : String) : String :=
  match labels.find? (fun kv => kv.1 == key) with
  | some kv => kv.2
  | none => ""

/-- Lookup plus newline cleaning of one requested annotation key
(part_000 lines 109-118). -/
def annotationValue (annotations : List (String × String)) (key : String) : String :=
  match annotations.find? (fun kv => kv.1 == key) with
  | some kv => (kv.2.replace "\n" " ").replace "\r" " "
  | none => ""

/-- `buildCSVRecord` for a container row.
Field layout follows the in-src revision (part_000 lines 84-121); the status
column is `getContainerMemoryStatus`, modelled from the spec (§4.5: container
rows carry the container-level status) and the test `TestBuildCSVRecord`,
which expects exactly that call — the revision containing it is absent
from src, whose older copy still calls the pod-level classifier there. -/
def buildCSVRecord (pod : PodMemoryInfo) (container : ContainerMemoryInfo)
    (cfg : Config) (timestamp : String) : List String :=
  [timestamp,
   getContainerMemoryStatus pod container cfg,
   pod.Namespace,
   pod.PodName,
   pod.Phase,
   toString pod.Ready,
   formatBytesForCSV container.CurrentUsage,
   formatBytesForCSV container.MemoryRequest,
   formatBytesForCSV container.MemoryLimit,
   formatPercentForCSV container.UsagePercent,
   formatPercentForCSV container.LimitUsagePercent,
   container.ContainerName] ++
    cfg.Labels.map (labelValue pod.Labels) ++
    cfg.Annotations.map (annotationValue pod.Annotations)

/-- `buildCSVRecordForPod` (part_000 lines 124-161): the pod-fallback row,
with the pod-level status and an empty container-name column. -/
def buildCSVRecordForPod (pod : PodMemoryInfo) (cfg : Config)
    (timestamp : String) : List String :=
  [timestamp,
   getMemoryStatus pod cfg,
   pod.Namespace,
   pod.PodName,
   pod.Phase,
   toString pod.Ready,
   formatBytesForCSV pod.CurrentUsage,
   formatBytesForCSV pod.MemoryRequest,
   formatBytesForCSV pod.MemoryLimit,
   formatPercentForCSV pod.UsagePercent,
   formatPercentForCSV pod.LimitUsagePercent,
   ""] ++
    cfg.Labels.map (labelValue pod.Labels) ++
    cfg.Annotations.map (annotationValue pod.Annotations)

/-- `writeContainerRows` (internal/monitor/csv_formatter.go lines 89-98):
one row per container, each container's percentages recomputed first. -/
def writeContainerRows (pod : PodMemoryInfo) (cfg : Config)
    (timestamp : String) : List (List String) :=
  pod.Containers.map (fun c => buildCSVRecord pod c.CalculateUsagePercent cfg timestamp)

/-- `writePodRow` (internal/monitor/csv_formatter.go lines 100-106). -/
def writePodRow (pod : PodMemoryInfo) (cfg : Config)
    (timestamp : String) : List (List String) :=
  [buildCSVRecordForPod pod cfg timestamp]

/-- `writeData` (internal/monitor/csv_formatter.go lines 73-86): container
rows when a breakdown exists, otherwise exactly one pod-fallback row. -/
def writeData (report : MemoryReport) (cfg : Config) : List (List String) :=
  report.Pods.flatMap (fun pod =>
    let p := pod.CalculateUsagePercent
    if p.Containers ≠ [] then writeContainerRows p cfg report.Summary.Timestamp
    else writePodRow p cfg report.Summary.Timestamp)

/-- **C4**: in the CSV renderer the status column (index 1) of every
per-container row is the container-level status computed by
`getContainerMemoryStatus` from that container's own data, while the single
pod-fallback row carries the pod-level `getMemoryStatus`; the two
classification functions are independent — on the mixed pod of the
per-container-evaluation test the pod classifies no_data while its fully
configured container classifies ok. -/
theorem csv_rows_status_levels (pod : PodMemoryInfo) (container : ContainerMemoryInfo)
    (cfg : Config) (ts : String) :
    (buildCSVRecord pod container cfg ts).get? 1 =
      some (getContainerMemoryStatus pod container cfg) ∧
    (buildCSVRecordForPod pod cfg ts).get? 1 = some (getMemoryStatus pod cfg) ∧
    (∀ row ∈ writeContainerRows pod cfg ts, ∃ c ∈ pod.Containers,
      row.get? 1 = some (getContainerMemoryStatus pod c.CalculateUsagePercent cfg)) ∧
    (∀ row ∈ writePodRow pod cfg ts, row.get? 1 = some (getMemoryStatus pod cfg)) ∧
    (getContainerMemoryStatus
        { Namespace := "monitoring", PodName := "grafana-xyz",
          Ready := true, Phase := "Running" }
        { ContainerName := "grafana", CurrentUsage := some 104857600,
          MemoryRequest := some 209715200, MemoryLimit := some 419430400,
          UsagePercent := some 50, LimitUsagePercent := some 25 }
        { MemoryWarningPercent := 80 } = "ok" ∧
      getMemoryStatus
        { Namespace := "monitoring", PodName := "grafana-xyz",
          Ready := true, Phase := "Running" }
        { MemoryWarningPercent := 80 } = "no_data") := by
  refine ⟨rfl, rfl, ?_, ?_, by decide, by decide⟩
  · intro row hrow
    rcases List.mem_map.1 hrow with ⟨c, hc, hrec⟩
    refine ⟨c, hc, ?_⟩
    rw [← hrec]
    rfl
  · intro row hrow
    rcases List.mem_singleton.1 hrow with rfl
    rfl

/-- Concrete one-container pod for the C4 witness. -/
def csvTestPod : PodMemoryInfo :=
  { Namespace := "ns", PodName := "p", Phase := "Running", Ready := true,
    Containers := [{ ContainerName := "only", CurrentUsage := some 10 }] }

/-- The single container of `csvTestPod`. -/
def csvTestContainer : ContainerMemoryInfo :=
  { ContainerName := "only", CurrentUsage := some 10 }

/-- Witness for C4 at a concrete one-container pod: the container row's
status column is the container-level classification. -/
theorem csv_rows_status_levels_witness :
    ∃ c ∈ csvTestPod.Containers,
      (buildCSVRecord csvTestPod csvTestContainer.CalculateUsagePercent
        { MemoryWarningPercent := 80 } "t").get? 1 =
      some (getContainerMemoryStatus csvTestPod c.CalculateUsagePercent
        { MemoryWarningPercent := 80 }) := by
  have h := csv_rows_status_levels csvTestPod csvTestContainer
    { MemoryWarningPercent := 80 } "t"
  refine h.2.2.1 (buildCSVRecord csvTestPod csvTestContainer.CalculateUsagePercent
    { MemoryWarningPercent := 80 } "t") ?_
  simp [writeContainerRows, csvTestPod, csvTestContainer]

end KMW
